import Mathlib

/-!
Verification of the SecureScript backend (src/backend/server.py).

The development shallowly embeds the request-authorization and
response-normalization pipeline of the FastAPI server: the request
validator, the tolerant JSON extraction applied to the LLM reply, the
identity verifier, the two endpoint compositions and the SSE fix stream.
External collaborators (CPython `compile`, the `jwt` library, the network,
the remote model) are modelled as explicit oracle parameters; everything
the repository's own code does is translated directly from the source.

Strings are handled through their underlying character lists so that every
definition evaluates inside the kernel.
-/

/-! ## Character and string helpers (Python semantics) -/

abbrev Chars := List Char

/-- The opening curly brace character. -/
def lbrace : Char := Char.ofNat 123

/-- The closing curly brace character. -/
def rbrace : Char := Char.ofNat 125

/-- Whitespace accepted by the JSON scanner of `json.loads` (space, tab,
newline, carriage return). -/
def jsonWsChar (c : Char) : Bool :=
  c == ' ' || c == '\t' || c == '\n' || c == '\r'

/-- Whitespace in the sense of Python's regex `\s` and `str.strip()`
(ASCII part: space, tab, newline, carriage return, vertical tab, form
feed). -/
def pyIsSpace (c : Char) : Bool :=
  c == ' ' || c == '\t' || c == '\n' || c == '\r' ||
  c == Char.ofNat 11 || c == Char.ofNat 12

/-- Drop leading whitespace, as the greedy leading `\s*` of the regexes. -/
def trimFront (l : Chars) : Chars := l.dropWhile pyIsSpace

/-- Drop trailing whitespace. -/
def trimBack (l : Chars) : Chars := (l.reverse.dropWhile pyIsSpace).reverse

/-- Strip whitespace from both ends (Python `str.strip()` restricted to
ASCII whitespace, and the effect of the `\s*...\s*` regex groups). -/
def pyTrimList (l : Chars) : Chars := trimFront (trimBack l)

/-- Python `str.strip()` on strings. -/
def pyStrip (s : String) : String := String.mk (pyTrimList s.data)

/-- Python `str.lower()` (ASCII). -/
def pyLower (s : String) : String := String.mk (s.data.map Char.toLower)

/-- Python `str.split(",")`: splits on every comma, `""` yields `[""]`. -/
def splitCommaAux : Chars → Chars → List String
  | [], acc => [String.mk acc.reverse]
  | c :: rest, acc =>
    if c = ',' then String.mk acc.reverse :: splitCommaAux rest []
    else splitCommaAux rest (c :: acc)

/-- Python `s.split(",")`. -/
def splitComma (s : String) : List String := splitCommaAux s.data []

/-- Concatenation of a list of strings in order. -/
def concatStrs : List String → String
  | [] => ""
  | s :: rest => s ++ concatStrs rest

/-- Python truthiness of an optional string: `None` and `""` are falsy. -/
def truthyStr : Option String → Bool
  | none => false
  | some s => !(s == "")

/-- Python `a or b` on optional strings (`None`/`""` are falsy, the second
operand is returned unchanged otherwise). -/
def pyOrStr (a b : Option String) : Option String :=
  match a with
  | some s => if s = "" then b else some s
  | none => b

/-! ## JSON values and the parser behind `json.loads`

`json.loads` is modelled by a fuel-indexed recursive-descent parser over
the character list.  Numbers are kept as their source lexemes (no claim
depends on their numeric value); `NaN`, `Infinity` and `-Infinity` are
accepted as Python's decoder does.  Two known, claim-irrelevant
divergences from CPython, noted for honesty: `\uXXXX` escapes in the
surrogate range are not paired into astral characters, and non-ASCII
whitespace is not recognised. -/

inductive Json where
  | null : Json
  | bool (b : Bool) : Json
  | num (lexeme : String) : Json
  | str (s : String) : Json
  | arr (elems : List Json) : Json
  | obj (members : List (String × Json)) : Json

/-- Value of one hex digit. -/
def hexVal (c : Char) : Option Nat :=
  if '0' ≤ c ∧ c ≤ '9' then some (c.toNat - 48)
  else if 'a' ≤ c ∧ c ≤ 'f' then some (c.toNat - 87)
  else if 'A' ≤ c ∧ c ≤ 'F' then some (c.toNat - 55)
  else none

/-- Combine four hex digits. -/
def hex4 (a b c d : Char) : Option Nat := do
  let x ← hexVal a
  let y ← hexVal b
  let z ← hexVal c
  let w ← hexVal d
  pure (((x * 16 + y) * 16 + z) * 16 + w)

/-- JSON short escapes after a backslash. -/
def escChar : Char → Option Char
  | '"' => some '"'
  | '\\' => some '\\'
  | '/' => some '/'
  | 'b' => some (Char.ofNat 8)
  | 'f' => some (Char.ofNat 12)
  | 'n' => some '\n'
  | 'r' => some '\r'
  | 't' => some '\t'
  | _ => none

/-- Body of a JSON string after the opening quote: returns the decoded
characters and the remainder after the closing quote.  Raw control
characters are rejected, as with `json.loads`'s default `strict=True`. -/
def parseStrChars : Chars → Option (Chars × Chars)
  | [] => none
  | '"' :: rest => some ([], rest)
  | '\\' :: rest =>
    match rest with
    | [] => none
    | 'u' :: a :: b :: c :: d :: rest3 =>
      match hex4 a b c d with
      | none => none
      | some n =>
        match parseStrChars rest3 with
        | none => none
        | some (cs, r) => some (Char.ofNat n :: cs, r)
    | e :: rest2 =>
      match escChar e with
      | none => none
      | some ec =>
        match parseStrChars rest2 with
        | none => none
        | some (cs, r) => some (ec :: cs, r)
  | c :: rest =>
    if c.toNat < 32 then none
    else
      match parseStrChars rest with
      | none => none
      | some (cs, r) => some (c :: cs, r)

/-- Integer part of a JSON number: `0` or a nonzero digit followed by
digits (leading zeros rejected, as by Python's NUMBER_RE). -/
def lexIntPart : Chars → Option (Chars × Chars)
  | [] => none
  | c :: rest =>
    if c = '0' then some (['0'], rest)
    else if c.isDigit then
      let (ds, r) := rest.span Char.isDigit
      some (c :: ds, r)
    else none

/-- Optional fractional part `.digits`. -/
def lexFrac : Chars → Option (Chars × Chars)
  | '.' :: rest =>
    match rest.span Char.isDigit with
    | ([], _) => none
    | (ds, r) => some ('.' :: ds, r)
  | cs => some ([], cs)

/-- Optional exponent part `[eE][+-]?digits`. -/
def lexExp : Chars → Option (Chars × Chars)
  | [] => some ([], [])
  | c :: rest =>
    if c = 'e' ∨ c = 'E' then
      let (sgn, rest2) :=
        match rest with
        | s :: r => if s = '+' ∨ s = '-' then ([s], r) else (([] : Chars), s :: r)
        | [] => (([] : Chars), ([] : Chars))
      match rest2.span Char.isDigit with
      | ([], _) => none
      | (ds, r) => some (c :: (sgn ++ ds), r)
    else some ([], c :: rest)

/-- Lexes a JSON number, returning its lexeme and the remainder. -/
def lexNumber (cs : Chars) : Option (Chars × Chars) :=
  let (sgnPart, cs1) :=
    match cs with
    | c :: r => if c = '-' then ((['-'] : Chars), r) else (([] : Chars), c :: r)
    | [] => (([] : Chars), ([] : Chars))
  match lexIntPart cs1 with
  | none => none
  | some (ip, cs2) =>
    match lexFrac cs2 with
    | none => none
    | some (fp, cs3) =>
      match lexExp cs3 with
      | none => none
      | some (ep, cs4) => some (sgnPart ++ ip ++ fp ++ ep, cs4)

/-- Keyword and number values (everything that is not a string, array or
object), including the `NaN`/`Infinity` constants Python accepts. -/
def parseLiteralOrNumber (cs : Chars) : Option (Json × Chars) :=
  if "true".data.isPrefixOf cs then some (.bool true, cs.drop 4)
  else if "false".data.isPrefixOf cs then some (.bool false, cs.drop 5)
  else if "null".data.isPrefixOf cs then some (.null, cs.drop 4)
  else if "NaN".data.isPrefixOf cs then some (.num "NaN", cs.drop 3)
  else if "Infinity".data.isPrefixOf cs then some (.num "Infinity", cs.drop 8)
  else if "-Infinity".data.isPrefixOf cs then some (.num "-Infinity", cs.drop 9)
  else
    match lexNumber cs with
    | none => none
    | some (ds, r) => some (.num (String.mk ds), r)

/-- Skip JSON whitespace. -/
def skipWs (cs : Chars) : Chars := cs.dropWhile jsonWsChar

mutual

/-- One JSON value (with leading whitespace skipped). -/
def parseValue : Nat → Chars → Option (Json × Chars)
  | 0, _ => none
  | fuel + 1, cs =>
    match skipWs cs with
    | [] => none
    | c :: rest =>
      if c = lbrace then parseObjBody fuel rest
      else if c = '[' then parseArrBody fuel rest
      else if c = '"' then
        match parseStrChars rest with
        | none => none
        | some (sc, r) => some (.str (String.mk sc), r)
      else parseLiteralOrNumber (c :: rest)

/-- Object body after the opening brace. -/
def parseObjBody : Nat → Chars → Option (Json × Chars)
  | 0, _ => none
  | fuel + 1, cs =>
    match skipWs cs with
    | [] => none
    | c :: rest =>
      if c = rbrace then some (.obj [], rest)
      else
        match parseMembers fuel (c :: rest) with
        | none => none
        | some (ms, r) => some (.obj ms, r)

/-- One or more `"key": value` members, consuming the closing brace. -/
def parseMembers : Nat → Chars → Option (List (String × Json) × Chars)
  | 0, _ => none
  | fuel + 1, cs =>
    match skipWs cs with
    | [] => none
    | c :: rest =>
      if c = '"' then
        match parseStrChars rest with
        | none => none
        | some (key, afterKey) =>
          match skipWs afterKey with
          | ':' :: afterColon =>
            match parseValue fuel afterColon with
            | none => none
            | some (v, afterVal) =>
              match skipWs afterVal with
              | ',' :: afterComma =>
                match parseMembers fuel afterComma with
                | none => none
                | some (ms, r) => some ((String.mk key, v) :: ms, r)
              | d :: afterBrace =>
                if d = rbrace then some ([(String.mk key, v)], afterBrace)
                else none
              | [] => none
          | _ => none
      else none

/-- Array body after the opening bracket. -/
def parseArrBody : Nat → Chars → Option (Json × Chars)
  | 0, _ => none
  | fuel + 1, cs =>
    match skipWs cs with
    | [] => none
    | c :: rest =>
      if c = ']' then some (.arr [], rest)
      else
        match parseElems fuel (c :: rest) with
        | none => none
        | some (xs, r) => some (.arr xs, r)

/-- One or more array elements, consuming the closing bracket. -/
def parseElems : Nat → Chars → Option (List Json × Chars)
  | 0, _ => none
  | fuel + 1, cs =>
    match parseValue fuel cs with
    | none => none
    | some (v, afterVal) =>
      match skipWs afterVal with
      | ',' :: afterComma =>
        match parseElems fuel afterComma with
        | none => none
        | some (xs, r) => some (v :: xs, r)
      | ']' :: afterBr => some ([v], afterBr)
      | _ => none

end

/-- Python `json.loads`: one value, with only whitespace allowed after it
("Extra data" otherwise).  The fuel `3 * length + 8` dominates the depth
of the recursion (each nesting level consumes at least one character and
costs at most three calls). -/
def jsonParse (s : String) : Option Json :=
  match parseValue (3 * s.length + 8) s.data with
  | none => none
  | some (j, rest) => if skipWs rest = [] then some j else none

/-! ## The SecurityReport shape (pydantic models, server.py lines 140-156)

`cvss_score` is kept as the numeric lexeme of the JSON payload: no claim
depends on its numeric value, only on the field being a JSON number. -/

structure SecurityIssue where
  title : String
  description : String
  code : String
  fix : String
  cvss_score : String
  severity : String
deriving DecidableEq

structure SecurityReport where
  summary : String
  issues : List SecurityIssue
deriving DecidableEq

/-- Lookup in a JSON object with Python `dict` semantics: a duplicated key
keeps its last value. -/
def lookupLast (k : String) : List (String × Json) → Option Json
  | [] => none
  | (k', v) :: rest =>
    match lookupLast k rest with
    | some r => some r
    | none => if k' = k then some v else none

/-- A JSON string value. -/
def asStr : Json → Option String
  | .str s => some s
  | _ => none

/-- A JSON number value (its lexeme). -/
def asNumLexeme : Json → Option String
  | .num s => some s
  | _ => none

/-- Validation of one `SecurityIssue` (pydantic: every field required with
its declared type; unknown fields ignored). -/
def issueOfJson : Json → Option SecurityIssue
  | .obj ms => do
    let t ← (lookupLast "title" ms).bind asStr
    let d ← (lookupLast "description" ms).bind asStr
    let c ← (lookupLast "code" ms).bind asStr
    let f ← (lookupLast "fix" ms).bind asStr
    let cv ← (lookupLast "cvss_score" ms).bind asNumLexeme
    let sv ← (lookupLast "severity" ms).bind asStr
    pure ⟨t, d, c, f, cv, sv⟩
  | _ => none

/-- Validation of the whole report: `SecurityReport(**data)` requires an
object with a string `summary` and a list `issues` of valid issues; any
shape mismatch raises (modelled as `none`). -/
def reportOfJson : Json → Option SecurityReport
  | .obj ms => do
    let s ← (lookupLast "summary" ms).bind asStr
    match lookupLast "issues" ms with
    | some (.arr xs) => do
      let issues ← xs.mapM issueOfJson
      pure ⟨s, issues⟩
    | _ => none
  | _ => none

/-! ## The fallback extraction regexes (server.py lines 234-252) -/

/-- Characters after the first occurrence of `pat`, or `none` when `pat`
does not occur. -/
def dropAfterSubstr (pat : Chars) : Chars → Option Chars
  | [] => if pat.isEmpty then some [] else none
  | c :: cs =>
    if pat.isPrefixOf (c :: cs) then some ((c :: cs).drop pat.length)
    else dropAfterSubstr pat cs

/-- Characters before the first occurrence of `pat`, or `none` when `pat`
does not occur. -/
def takeBeforeSubstr (pat : Chars) : Chars → Option Chars
  | [] => if pat.isEmpty then some [] else none
  | c :: cs =>
    if pat.isPrefixOf (c :: cs) then some []
    else (takeBeforeSubstr pat cs).map (c :: ·)

/-- Suffix after the first occurrence of the character `c`. -/
def afterFirst (c : Char) : Chars → Option Chars
  | [] => none
  | x :: xs => if x = c then some xs else afterFirst c xs

/-- Prefix before the last occurrence of the character `c`. -/
def beforeLast (c : Char) (l : Chars) : Option Chars :=
  (afterFirst c l.reverse).map List.reverse

/-- Fallback path 2, `re.search` with pattern  three backticks, `json`,
`\s*([\s\S]*?)\s*`, three backticks:  the span between the first
fenced-json opener and the earliest closing fence after it, stripped of
surrounding whitespace.  (A later opener cannot match when the first one
has no closing fence, because any later opener itself contains a fence.) -/
def extractFenced (s : String) : Option String :=
  match dropAfterSubstr "```json".data s.data with
  | none => none
  | some rest =>
    match takeBeforeSubstr "```".data rest with
    | none => none
    | some content => some (String.mk (pyTrimList content))

/-- Fallback path 3, `re.search` with the greedy pattern  brace,
`[\s\S]*`, brace:  from the first opening brace through the last closing
brace after it. -/
def extractBrace (s : String) : Option String :=
  match afterFirst lbrace s.data with
  | none => none
  | some rest =>
    match beforeLast rbrace rest with
    | none => none
    | some mid => some (String.mk (lbrace :: (mid ++ [rbrace])))

/-- Fallback path 4: the degraded report embedding the first 200
characters of the raw output (server.py lines 248-251). -/
def degradedReport (s : String) : SecurityReport :=
  ⟨"Failed to parse analysis results. Raw output: " ++ String.mk (s.data.take 200), []⟩

/-- The response-normalization chunk of `run_security_analysis_with_mcp`
(server.py lines 230-254) applied to the raw text payload of the model
reply.  `none` means an exception escapes the function (a located
candidate that `json.loads` rejects, or a shape mismatch in
`SecurityReport(**data)`); the enclosing endpoint turns it into a generic
HTTP 500. -/
def normalizeOutput (outputText : String) : Option SecurityReport :=
  match jsonParse outputText with
  | some j => reportOfJson j
  | none =>
    match extractFenced outputText with
    | some jsonStr => (jsonParse jsonStr).bind reportOfJson
    | none =>
      match extractBrace outputText with
      | some jsonStr => (jsonParse jsonStr).bind reportOfJson
      | none => some (degradedReport outputText)

/-! ## HTTP-level models -/

/-- A raised `fastapi.HTTPException` (status code and detail string). -/
structure HttpError where
  status : Nat
  detail : String
deriving DecidableEq

/-- Environment configuration read through `os.getenv` (`none` = unset). -/
structure Env where
  clerkFrontendApi : Option String
  requireJwtVerification : Option String
  groqApiKey : Option String
  requireApiKey : Option String
  validApiKeys : Option String

/-- The request validator `validate_request` (server.py lines 160-172).
`compileErr` is the CPython `compile(code, ..., "exec")` oracle: `some
msg` when compilation raises a `SyntaxError` with message `msg`, `none`
when the source compiles.  `none` as a result means validation passed.
Python's `len` counts characters, which `String.length` matches. -/
def validate_request (compileErr : String → Option String) (code : String) :
    Option HttpError :=
  if code = "" ∨ pyStrip code = "" then some ⟨400, "Code cannot be empty"⟩
  else if code.length > 50000 then
    some ⟨400, "Code is too large. Maximum size is 50KB"⟩
  else
    match compileErr code with
    | some msg => some ⟨400, "Invalid Python syntax: " ++ msg⟩
    | none => none

/-- The internal credential check `check_api_keys` (lines 175-178):
truthiness of `GROQ_API_KEY`. -/
def check_api_keys (env : Env) : Option HttpError :=
  if truthyStr env.groqApiKey then none
  else some ⟨500, "Service temporarily unavailable"⟩

/-- The client API-key check `verify_api_key` (lines 181-191), gated on
`REQUIRE_API_KEY`; a falsy or unknown `X-API-Key` is rejected. -/
def verify_api_key (env : Env) (xApiKey : Option String) : Option HttpError :=
  if pyLower (env.requireApiKey.getD "false") = "true" then
    let valid := splitComma (env.validApiKeys.getD "")
    match xApiKey with
    | none => some ⟨401, "Invalid or missing API key"⟩
    | some k =>
      if k = "" then some ⟨401, "Invalid or missing API key"⟩
      else if k ∈ valid then none
      else some ⟨401, "Invalid or missing API key"⟩
  else none

/-! ## Identity verifier (server.py lines 48-122) -/

/-- Claims of a decoded JWT payload that the code reads. -/
structure JwtPayload where
  email : Option String
  primary_email_address : Option String
  sub : Option String
deriving DecidableEq

/-- The identity chain of line 108: `payload.get("email") or
payload.get("primary_email_address") or payload.get("sub")`. -/
def userEmailOf (p : JwtPayload) : Option String :=
  pyOrStr (pyOrStr p.email p.primary_email_address) p.sub

/-- Identity extraction of lines 107-113: the chain result when truthy,
otherwise the `HTTPException(401, "Invalid token: no user identifier")`
raise, modelled as `.error ()`. -/
def identityOrFail (p : JwtPayload) : Except Unit String :=
  match userEmailOf p with
  | some s => if s = "" then .error () else .ok s
  | none => .error ()

/-- Exceptions that can escape the `try` body of
`verify_authenticated_user` and are dispatched by its `except` clauses. -/
inductive InnerExc where
  | httpExc (status : Nat) (detail : String)
  | expiredSig
  | invalidTok
  | otherExc
deriving DecidableEq

/-- Outcome of a `jwt.decode` call (external library oracle). -/
inductive DecodeResult where
  | ok (payload : JwtPayload)
  | expired
  | invalid
  | failOther
deriving DecidableEq

/-- Oracle for the external effects of the verifier: the JWKS fetch
(`none` = the network or JSON call raised; `some kids` = the `kid` values
of the fetched keys), the token's unverified header `kid` (`none` = the
header could not be decoded, an `InvalidTokenError`), and the verified and
unverified decode outcomes.  A failing `RSAAlgorithm.from_jwk` is folded
into `decodeVerified = .failOther`. -/
structure JwtOracle where
  jwksFetch : Option (List (Option String))
  tokenKid : Option (Option String)
  decodeVerified : DecodeResult
  decodeUnverified : DecodeResult

/-- The `try` body of `verify_authenticated_user` (lines 62-113).  The
misconfiguration raise on line 72 is an `HTTPException(500, ...)` thrown
inside the `try`. -/
def innerTry (env : Env) (o : JwtOracle) : Except InnerExc String :=
  let clerk := env.clerkFrontendApi.getD ""
  if clerk = "" ∧ pyLower (env.requireJwtVerification.getD "true") = "true" then
    .error (.httpExc 500 "Server misconfiguration: CLERK_FRONTEND_API not set")
  else
    let decodeOutcome : DecodeResult → Except InnerExc String := fun dr =>
      match dr with
      | .ok p =>
        match identityOrFail p with
        | .ok s => .ok s
        | .error _ => .error (.httpExc 401 "Invalid token: no user identifier")
      | .expired => .error .expiredSig
      | .invalid => .error .invalidTok
      | .failOther => .error .otherExc
    if clerk ≠ "" then
      match o.jwksFetch with
      | none => .error .otherExc
      | some kids =>
        match o.tokenKid with
        | none => .error .invalidTok
        | some kid =>
          if kid ∈ kids then decodeOutcome o.decodeVerified
          else .error (.httpExc 401 "Unable to find signing key")
    else decodeOutcome o.decodeUnverified

/-- `verify_authenticated_user` (lines 48-122).  The missing/non-Bearer
header check precedes the `try`; the `except` clauses map
`ExpiredSignatureError` and `InvalidTokenError` to their own 401 details
and every other exception — `HTTPException` included, since
`fastapi.HTTPException` derives from `Exception` and no dedicated clause
re-raises it — to `401 "Authentication failed."`. -/
def verify_authenticated_user (env : Env) (o : JwtOracle)
    (authHeader : Option String) : Except HttpError String :=
  match authHeader with
  | none => .error ⟨401, "Authentication required. Please sign in."⟩
  | some h =>
    if "Bearer ".data.isPrefixOf h.data then
      match innerTry env o with
      | .ok e => .ok e
      | .error .expiredSig => .error ⟨401, "Token expired. Please sign in again."⟩
      | .error .invalidTok => .error ⟨401, "Invalid authentication token."⟩
      | .error (.httpExc _ _) => .error ⟨401, "Authentication failed."⟩
      | .error .otherExc => .error ⟨401, "Authentication failed."⟩
    else .error ⟨401, "Authentication required. Please sign in."⟩

/-! ## The analyze endpoint (server.py lines 261-304) -/

/-- `POST /api/analyze`: the dependency `verify_authenticated_user` runs
before the handler body; the body then checks the API key, validates the
request, checks the upstream credential and calls the Gateway, whose late
failures (including a normalizer exception) become a generic 500 with the
request-correlation id.  `gateway` is the LLM call oracle (`.ok raw` = the
raw reply text); the boolean records whether the Gateway was invoked. -/
def analyze_code (env : Env) (o : JwtOracle)
    (compileErr : String → Option String) (gateway : Except Unit String)
    (requestId : String) (authHeader xApiKey : Option String)
    (acode : String) : Except HttpError SecurityReport × Bool :=
  match verify_authenticated_user env o authHeader with
  | .error e => (.error e, false)
  | .ok _ =>
    match verify_api_key env xApiKey with
    | some e => (.error e, false)
    | none =>
      match validate_request compileErr acode with
      | some e => (.error e, false)
      | none =>
        match check_api_keys env with
        | some e => (.error e, false)
        | none =>
          match gateway with
          | .error _ =>
            (.error ⟨500, "Analysis failed. Contact support with ID: " ++ requestId⟩, true)
          | .ok raw =>
            match normalizeOutput raw with
            | some r => (.ok r, true)
            | none =>
              (.error ⟨500, "Analysis failed. Contact support with ID: " ++ requestId⟩, true)

/-! ## The fix endpoint and its SSE stream (server.py lines 307-388) -/

/-- Events of the server-sent stream.  A `chunk` carries the literal
fragment text, `complete` carries the full concatenated fixed code; the
wire format is `event: name` / `data: json` per message. -/
inductive SseEvent where
  | start
  | chunk (text : String)
  | complete (fixed_code : String)
  | error
deriving DecidableEq

/-- Behavior of the upstream streamed completion: `failBefore` = an
exception before the `start` event is yielded (e.g. client construction
with a missing credential); `stream frags ok` = the `delta.content` values
of the received chunks in arrival order (`none` = a content-less chunk),
with `ok = false` when the iteration raises after the listed chunks. -/
inductive UpstreamFix where
  | failBefore
  | stream (frags : List (Option String)) (ok : Bool)

/-- The `async for` loop of `generate_fix_stream` (lines 365-371): a chunk
event is yielded only when `chunk.choices[0].delta.content` is truthy, and
`fixed_code` accumulates exactly those fragments. -/
def fixChunkLoop : List (Option String) → String → List SseEvent × String
  | [], acc => ([], acc)
  | none :: rest, acc => fixChunkLoop rest acc
  | some c :: rest, acc =>
    if c = "" then fixChunkLoop rest acc
    else
      let (evs, fin) := fixChunkLoop rest (acc ++ c)
      (SseEvent.chunk c :: evs, fin)

/-- The generator `generate_fix_stream` (lines 329-379): `start`, the
chunk events, then `complete` with the accumulated code — or a terminal
`error` event when an exception occurs (before `start` nothing else is
emitted). -/
def generate_fix_stream : UpstreamFix → List SseEvent
  | .failBefore => [.error]
  | .stream frags ok =>
    let (evs, fixed) := fixChunkLoop frags ""
    .start :: (evs ++ (if ok then [.complete fixed] else [.error]))

/-! ## Rate limiter -/

/-- Length of the quota window ("7/day"), in seconds. -/
def dayLen : Nat := 86400

/-- Per-identity window state: request counter and window start. -/
structure WindowState where
  count : Nat
  windowStart : Nat
deriving DecidableEq

/-- Lookup of an identity's window in the limiter store. -/
def limiterLookup (st : List (String × WindowState)) (id : String) :
    Option WindowState :=
  match st with
  | [] => none
  | (k, w) :: rest => if k = id then some w else limiterLookup rest id

/-- Update of an identity's window in the limiter store. -/
def limiterSet (st : List (String × WindowState)) (id : String)
    (w : WindowState) : List (String × WindowState) :=
  match st with
  | [] => [(id, w)]
  | (k, w') :: rest =>
    if k = id then (k, w) :: rest else (k, w') :: limiterSet rest id w

/-- Modelled from the spec: the quota accounting lives inside the
third-party `slowapi` limiter, which is not part of this repository's
sources — `src/backend/server.py` only constructs one `Limiter` keyed by
`get_user_email` and decorates both endpoints with `"7/day"`.  Following
spec sections 3 and 4.3: one window per identity, created on the first
request, reset when the window elapses, at most 7 allowed requests per
window, shared by both endpoints of the same limiter instance. -/
def limiterHit (st : List (String × WindowState)) (id : String) (t : Nat) :
    Bool × List (String × WindowState) :=
  match limiterLookup st id with
  | none => (true, limiterSet st id ⟨1, t⟩)
  | some w =>
    if w.windowStart + dayLen ≤ t then (true, limiterSet st id ⟨1, t⟩)
    else if w.count < 7 then (true, limiterSet st id ⟨w.count + 1, w.windowStart⟩)
    else (false, st)

/-- Which of the two rate-limited endpoints a request hits. -/
inductive EndpointTag where
  | analyze
  | fix
deriving DecidableEq

/-- Runs a sequence of timestamped requests from one identity through the
single shared limiter, returning each request's allow/deny decision.  The
endpoint tag is carried but — by the shared-quota model — never consulted. -/
def runShared (st : List (String × WindowState)) (id : String) :
    List (EndpointTag × Nat) → List Bool
  | [] => []
  | (_, t) :: rest =>
    let (ok, st') := limiterHit st id t
    ok :: runShared st' id rest

/-- Number of allowed requests in a decision list. -/
def countAllowed (l : List Bool) : Nat := l.count true

/-- `POST /api/fix` (server.py lines 307-388).  The composition order is:
the authentication dependency `verify_authenticated_user` resolves first;
then the `@limiter.limit("7/day")` wrapper on line 308 runs, keyed by
`get_user_email` (the X-User-Email header, else the remote address, here
`rlKey`) against the single shared limiter state — on an exhausted quota
slowapi's handler answers 429 ("Rate limit exceeded: 7 per 1 day") and no
stream is opened; only then does the handler body check the API key and
return the streaming response.  `validate_request` does not appear on this
path, and the submitted code and issues do not influence whether the
stream opens.  The quota accounting reuses the spec-modelled `limiterHit`
(the slowapi internals are not part of this repository's sources). -/
def fix_security_issues (env : Env) (o : JwtOracle)
    (st : List (String × WindowState)) (rlKey : String) (now : Nat)
    (authHeader xApiKey : Option String) (_fixCode : String)
    (_issues : List SecurityIssue) (upstream : UpstreamFix) :
    Except HttpError (List SseEvent) × List (String × WindowState) :=
  match verify_authenticated_user env o authHeader with
  | .error e => (.error e, st)
  | .ok _ =>
    match limiterHit st rlKey now with
    | (false, st') => (.error ⟨429, "Rate limit exceeded: 7 per 1 day"⟩, st')
    | (true, st') =>
      match verify_api_key env xApiKey with
      | some e => (.error e, st')
      | none => (.ok (generate_fix_stream upstream), st')

/-- The fragments that actually produce chunk events: the truthy
(non-`None`, non-empty) `delta.content` values, in order. -/
def truthyFrags (frags : List (Option String)) : List String :=
  frags.filterMap (fun o =>
    match o with
    | some c => if c = "" then none else some c
    | none => none)

/-! ## Helper lemmas -/

theorem empty_append_str (s : String) : "" ++ s = s := by
  cases s
  rfl

theorem append_empty_str (s : String) : s ++ "" = s := by
  cases s
  show String.mk _ = _
  simp

theorem str_append_assoc (a b c : String) : (a ++ b) ++ c = a ++ (b ++ c) := by
  cases a
  cases b
  cases c
  show String.mk _ = String.mk _
  simp

theorem strMk_data (s : String) : String.mk s.data = s := by
  cases s
  rfl

/-- Rewriting the normalizer when every extraction path has failed. -/
theorem normalize_no_candidates (s : String) (h1 : jsonParse s = none)
    (h2 : extractFenced s = none) (h3 : extractBrace s = none) :
    normalizeOutput s = some (degradedReport s) := by
  simp only [normalizeOutput, h1, h2, h3]

theorem pyIsSpace_space : pyIsSpace ' ' = true := rfl

theorem dropWhile_space_replicate (n : Nat) :
    List.dropWhile pyIsSpace (List.replicate n ' ') = [] := by
  induction n with
  | zero => rfl
  | succ n ih =>
    rw [List.replicate_succ, List.dropWhile_cons, pyIsSpace_space]
    simpa using ih

theorem dropWhile_space_replicate_append (n : Nat) (l : Chars) :
    List.dropWhile pyIsSpace (List.replicate n ' ' ++ l) =
      List.dropWhile pyIsSpace l := by
  induction n with
  | zero => rfl
  | succ n ih =>
    rw [List.replicate_succ, List.cons_append, List.dropWhile_cons, pyIsSpace_space]
    simpa using ih

theorem pyStrip_spaces (n : Nat) :
    pyStrip (String.mk (List.replicate n ' ')) = "" := by
  show String.mk (pyTrimList (List.replicate n ' ')) = ""
  unfold pyTrimList trimBack trimFront
  rw [List.reverse_replicate, dropWhile_space_replicate]
  rfl

/-- The chunk loop emits exactly the truthy fragments and accumulates
their concatenation. -/
theorem fixChunkLoop_spec (frags : List (Option String)) :
    ∀ acc : String,
      fixChunkLoop frags acc =
        ((truthyFrags frags).map SseEvent.chunk,
          acc ++ concatStrs (truthyFrags frags)) := by
  induction frags with
  | nil =>
    intro acc
    simp [fixChunkLoop, truthyFrags, concatStrs, append_empty_str]
  | cons f rest ih =>
    intro acc
    match f with
    | none => simpa [fixChunkLoop, truthyFrags] using ih acc
    | some c =>
      by_cases hc : c = ""
      · subst hc
        simpa [fixChunkLoop, truthyFrags] using ih acc
      · simp only [fixChunkLoop, truthyFrags, List.filterMap_cons, if_neg hc]
        rw [ih (acc ++ c)]
        simp only [truthyFrags, List.map_cons, concatStrs]
        rw [str_append_assoc]

theorem limiterLookup_set (st : List (String × WindowState)) (id : String)
    (w : WindowState) : limiterLookup (limiterSet st id w) id = some w := by
  induction st with
  | nil => simp [limiterSet, limiterLookup]
  | cons kw rest ih =>
    obtain ⟨k, w'⟩ := kw
    by_cases hk : k = id
    · simp [limiterSet, limiterLookup, hk]
    · simp [limiterSet, limiterLookup, hk, ih]

/-- Invariant step for the shared limiter: from a window holding `c`
requests, any sequence of in-window requests gets `min length (7 - c)`
further allowances, whatever endpoints they hit. -/
theorem runShared_window (id : String) (reqs : List (EndpointTag × Nat)) :
    ∀ (st : List (String × WindowState)) (c s0 : Nat),
      limiterLookup st id = some ⟨c, s0⟩ → c ≤ 7 →
      (∀ p ∈ reqs, p.2 < s0 + dayLen) →
      countAllowed (runShared st id reqs) = min reqs.length (7 - c) := by
  induction reqs with
  | nil =>
    intro st c s0 _ _ _
    simp [runShared, countAllowed]
  | cons q rest ih =>
    intro st c s0 hlk hc ht
    obtain ⟨tag, t⟩ := q
    have htq : t < s0 + dayLen := ht ⟨tag, t⟩ (List.mem_cons_self _ _)
    have hrest : ∀ p ∈ rest, p.2 < s0 + dayLen := fun p hp =>
      ht p (List.mem_cons_of_mem _ hp)
    simp only [runShared, limiterHit, hlk]
    rw [if_neg (by omega : ¬ s0 + dayLen ≤ t)]
    by_cases hlt : c < 7
    · rw [if_pos hlt]
      simp only [countAllowed, List.count_cons]
      have := ih (limiterSet st id ⟨c + 1, s0⟩) (c + 1) s0
        (limiterLookup_set st id ⟨c + 1, s0⟩) (by omega) hrest
      simp only [countAllowed] at this
      rw [this]
      simp only [List.length_cons]
      simp
      omega
    · rw [if_neg hlt]
      simp only [countAllowed, List.count_cons]
      have := ih st c s0 hlk hc hrest
      simp only [countAllowed] at this
      rw [this]
      simp only [List.length_cons]
      simp
      omega

/-! ## Claim theorems -/

/-- C1 (amended): when the direct JSON parse, the fenced-block extraction
and the brace-span extraction all fail to locate a JSON candidate in the
raw payload, the Normalizer returns the degraded SecurityReport — summary
stating parsing failed plus the first 200 characters of the raw output,
empty issue list — instead of raising.  (The original claim's blanket
"never raises a caller-visible error due to formatting drift" fails when a
candidate is located but does not parse; see the counterexample.) -/
theorem normalizer_degrades_when_nothing_located : ∀ s : String,
    jsonParse s = none → extractFenced s = none → extractBrace s = none →
    normalizeOutput s =
      some ⟨"Failed to parse analysis results. Raw output: " ++
        String.mk (s.data.take 200), []⟩ := by
  intro s h1 h2 h3
  exact normalize_no_candidates s h1 h2 h3

/-- Witness for C1 at a concrete unparsable payload with no brace span. -/
theorem normalizer_degrades_witness :
    normalizeOutput "hello world" =
      some ⟨"Failed to parse analysis results. Raw output: hello world", []⟩ :=
  normalizer_degrades_when_nothing_located "hello world" rfl rfl rfl

/-- C1 counterexample: formatting drift that leaves a stray brace span
which is not JSON makes `json.loads` raise on the extracted span; the
exception escapes the Normalizer (result `none`) and surfaces as the
endpoint's generic 500, contradicting "never raises a caller-visible
error due to formatting drift". -/
theorem normalizer_brace_span_exception :
    normalizeOutput "error \x7b not json \x7d" = none ∧
      extractBrace "error \x7b not json \x7d" = some "\x7b not json \x7d" :=
  ⟨rfl, rfl⟩

/-- C2: the quota of 7 per rolling day is shared across the analyze and
fix endpoints under the single limiter instance: any in-window sequence of
requests from one identity, however the two endpoints are interleaved,
gets exactly `min n 7` allowances — the endpoint tag never matters.
Modelled from the spec (sections 3, 4.3): the accounting itself lives in
the third-party slowapi library, outside this repository's sources. -/
theorem shared_quota_across_endpoints : ∀ (id : String) (t0 : Nat)
    (reqs : List (EndpointTag × Nat)),
    (∀ p ∈ reqs, t0 ≤ p.2 ∧ p.2 < t0 + dayLen) →
    countAllowed (runShared [] id reqs) = min reqs.length 7 := by
  intro id t0 reqs h
  match reqs with
  | [] => simp [runShared, countAllowed]
  | (tag, t) :: rest =>
    have hht := h (tag, t) (List.mem_cons_self _ _)
    have hrest : ∀ p ∈ rest, p.2 < t + dayLen := by
      intro p hp
      have := h p (List.mem_cons_of_mem _ hp)
      omega
    simp only [runShared, limiterHit, limiterLookup, limiterSet]
    have := runShared_window id rest [(id, ⟨1, t⟩)] 1 t
      (by simp [limiterLookup]) (by omega) hrest
    simp only [countAllowed] at this ⊢
    simp only [List.count_cons, this, List.length_cons]
    simp
    omega

/-- Witness for C2: eight interleaved analyze/fix requests inside one
window are allowed exactly seven times; the eighth combined request is
denied by the shared quota. -/
theorem shared_quota_witness :
    countAllowed (runShared [] "u"
      [(.analyze, 0), (.fix, 1), (.analyze, 2), (.fix, 3),
       (.analyze, 4), (.fix, 5), (.analyze, 6), (.fix, 7)]) = 7 := by
  rw [shared_quota_across_endpoints "u" 0
    [(.analyze, 0), (.fix, 1), (.analyze, 2), (.fix, 3),
     (.analyze, 4), (.fix, 5), (.analyze, 6), (.fix, 7)] (by decide)]
  decide

/-- C3 counterexample: an oversized input made of 50,001 spaces is
rejected by the emptiness check (HTTP 400 "Code cannot be empty"), not by
the size check — the Validator tests emptiness before size, so `TooLarge`
is not produced "regardless of content". -/
theorem validator_oversized_blank_not_toolarge :
    validate_request (fun _ => none) (String.mk (List.replicate 50001 ' ')) =
      some ⟨400, "Code cannot be empty"⟩ ∧
    (String.mk (List.replicate 50001 ' ')).length > 50000 ∧
    (⟨400, "Code cannot be empty"⟩ : HttpError) ≠
      ⟨400, "Code is too large. Maximum size is 50KB"⟩ := by
  refine ⟨?_, ?_, by decide⟩
  · unfold validate_request
    rw [if_pos (Or.inr (pyStrip_spaces 50001))]
  · show (List.replicate 50001 ' ').length > 50000
    rw [List.length_replicate]
    omega

/-- C3 (amended): for every code input whose character length exceeds
50,000 and which is not blank after stripping, the Validator fails with
the TooLarge error regardless of the remaining content (the syntax oracle
is never consulted). -/
theorem validator_oversize_toolarge :
    ∀ (compileErr : String → Option String) (code : String),
      pyStrip code ≠ "" → code.length > 50000 →
      validate_request compileErr code =
        some ⟨400, "Code is too large. Maximum size is 50KB"⟩ := by
  intro compileErr code h1 h2
  have hne : ¬(code = "" ∨ pyStrip code = "") := by
    rintro (rfl | h)
    · exact h1 rfl
    · exact h1 h
  unfold validate_request
  rw [if_neg hne, if_pos h2]

/-- Witness for C3: 50,001 characters led by a non-blank one. -/
theorem validator_oversize_toolarge_witness :
    validate_request (fun _ => none) (String.mk ('a' :: List.replicate 50000 ' ')) =
      some ⟨400, "Code is too large. Maximum size is 50KB"⟩ := by
  refine validator_oversize_toolarge (fun _ => none) _ ?_ ?_
  · show String.mk (pyTrimList ('a' :: List.replicate 50000 ' ')) ≠ ""
    unfold pyTrimList trimBack trimFront
    rw [List.reverse_cons, List.reverse_replicate,
      dropWhile_space_replicate_append]
    decide
  · show ('a' :: List.replicate 50000 ' ').length > 50000
    rw [List.length_cons, List.length_replicate]
    omega

/-- C5: with CLERK_FRONTEND_API unset while strict verification is
required, the `try` body does raise the intended
`HTTPException(500, "Server misconfiguration: ...")` — but the trailing
`except Exception` clause of `verify_authenticated_user` catches it
(fastapi's `HTTPException` derives from `Exception`) and replaces it with
`401 "Authentication failed."`, so the request fails with 401, not the
500 the claim (and the code's own raise) intends. -/
theorem misconfigured_verification_yields_401 :
    innerTry ⟨none, none, none, none, none⟩ ⟨none, none, .failOther, .failOther⟩ =
      .error (.httpExc 500 "Server misconfiguration: CLERK_FRONTEND_API not set") ∧
    verify_authenticated_user ⟨none, none, none, none, none⟩
      ⟨none, none, .failOther, .failOther⟩ (some "Bearer abc") =
      .error ⟨401, "Authentication failed."⟩ ∧
    (401 : Nat) ≠ 500 :=
  ⟨rfl, rfl, by decide⟩

/-- C6 counterexample: the single-space input is syntactically valid
Python (CPython's `compile` accepts a whitespace-only module, which the
oracle `fun _ => none` reflects), non-empty as a string and far below the
size bound, yet the Validator rejects it with the emptiness error instead
of passing. -/
theorem validator_blank_input_rejected :
    validate_request (fun _ => none) " " = some ⟨400, "Code cannot be empty"⟩ ∧
    (" " : String) ≠ "" ∧ (" " : String).length ≤ 50000 :=
  ⟨rfl, by decide, by decide⟩

/-- C6 (amended): for inputs that are non-blank after stripping and of at
most 50,000 characters, the Validator classifies exactly by the syntax
oracle — a `SyntaxError` carrying the parser's message when compilation
fails, a pass otherwise. -/
theorem validator_syntax_classification :
    ∀ (compileErr : String → Option String) (code : String),
      pyStrip code ≠ "" → code.length ≤ 50000 →
      validate_request compileErr code =
        (match compileErr code with
         | some msg => some ⟨400, "Invalid Python syntax: " ++ msg⟩
         | none => none) := by
  intro compileErr code h1 h2
  have hne : ¬(code = "" ∨ pyStrip code = "") := by
    rintro (rfl | h)
    · exact h1 rfl
    · exact h1 h
  unfold validate_request
  rw [if_neg hne, if_neg (by omega : ¬ code.length > 50000)]

/-- Witness for C6: a failing and a passing compilation outcome. -/
theorem validator_syntax_classification_witness :
    validate_request (fun _ => some "invalid syntax") "x" =
      some ⟨400, "Invalid Python syntax: invalid syntax"⟩ ∧
    validate_request (fun _ => none) "y = 1" = none :=
  ⟨validator_syntax_classification (fun _ => some "invalid syntax") "x"
      (by decide) (by decide),
    validator_syntax_classification (fun _ => none) "y = 1"
      (by decide) (by decide)⟩

/-- C7 counterexample: an upstream fragment whose `delta.content` is the
empty string produces no chunk event (the loop guard
`if chunk.choices[0].delta.content:` skips falsy content), so the emitted
sequence has one chunk event per non-empty fragment, not one per
fragment as claimed. -/
theorem fix_stream_skips_empty_fragment :
    generate_fix_stream (.stream [some "def", some "", some "()"] true) =
      [.start, .chunk "def", .chunk "()", .complete "def()"] ∧
    ([.start, .chunk "def", .chunk "()", .complete "def()"] : List SseEvent) ≠
      [.start, .chunk "def", .chunk "", .chunk "()", .complete "def()"] :=
  ⟨rfl, by decide⟩

/-- C7 (amended): once the stream has opened, the event sequence is one
`start`, then one `chunk` per truthy (non-`None`, non-empty) upstream
fragment carrying its literal text in arrival order, then one `complete`
whose `fixed_code` is the in-order concatenation of those fragments — or
a terminal `error` event instead of the `complete` when a failure occurs
after the stream has started. -/
theorem fix_stream_event_sequence :
    ∀ (frags : List (Option String)) (ok : Bool),
      generate_fix_stream (.stream frags ok) =
        .start :: ((truthyFrags frags).map SseEvent.chunk ++
          (if ok then [.complete (concatStrs (truthyFrags frags))]
           else [.error])) := by
  intro frags ok
  simp only [generate_fix_stream]
  rw [fixChunkLoop_spec frags ""]
  rw [empty_append_str]

/-- C8: a request to the analyze endpoint with no Authorization header, or
with a credential that is not Bearer-prefixed, is rejected with HTTP 401
by the authentication dependency before the handler body runs — the LLM
Gateway is never invoked (recorded by the `false` flag). -/
theorem analyze_unauthenticated_short_circuit :
    (∀ env o compileErr gateway rid xApiKey acode,
      analyze_code env o compileErr gateway rid none xApiKey acode =
        (.error ⟨401, "Authentication required. Please sign in."⟩, false)) ∧
    (∀ env o compileErr gateway rid h xApiKey acode,
      "Bearer ".data.isPrefixOf h.data = false →
      analyze_code env o compileErr gateway rid (some h) xApiKey acode =
        (.error ⟨401, "Authentication required. Please sign in."⟩, false)) := by
  constructor
  · intro env o compileErr gateway rid xApiKey acode
    rfl
  · intro env o compileErr gateway rid h xApiKey acode hpf
    simp [analyze_code, verify_authenticated_user, hpf]

/-- Witness for C8 at a concrete non-Bearer credential. -/
theorem analyze_unauthenticated_witness :
    analyze_code ⟨none, none, none, none, none⟩
      ⟨none, none, .failOther, .failOther⟩ (fun _ => none) (.error ()) "r1"
      (some "Token x") none "print(1)" =
      (.error ⟨401, "Authentication required. Please sign in."⟩, false) :=
  analyze_unauthenticated_short_circuit.2 _ _ _ _ _ "Token x" _ _ rfl

/-- C9 counterexample: a verified payload whose email claim is present but
empty is not extracted in claim-priority order — Python's `or` chain
skips the falsy `""` and returns the subject claim instead. -/
theorem identity_empty_email_overridden :
    userEmailOf ⟨some "", none, some "user_1"⟩ = some "user_1" ∧
    (JwtPayload.email ⟨some "", none, some "user_1"⟩).isSome = true ∧
    (some "user_1" : Option String) ≠ some "" :=
  ⟨rfl, rfl, by decide⟩

/-- C9 (amended): identity extraction follows strict priority among the
truthy (present and non-empty) claims — email, then secondary email, then
subject — and the NoIdentifier failure occurs exactly when none of the
three claims is truthy. -/
theorem identity_priority_truthy :
    ∀ e pr s : Option String,
      (identityOrFail ⟨e, pr, s⟩ = .error () ↔
        truthyStr e = false ∧ truthyStr pr = false ∧ truthyStr s = false) ∧
      (truthyStr e = true → identityOrFail ⟨e, pr, s⟩ = .ok (e.getD "")) ∧
      (truthyStr e = false → truthyStr pr = true →
        identityOrFail ⟨e, pr, s⟩ = .ok (pr.getD "")) ∧
      (truthyStr e = false → truthyStr pr = false → truthyStr s = true →
        identityOrFail ⟨e, pr, s⟩ = .ok (s.getD "")) := by
  intro e pr s
  rcases e with _ | ea
  · rcases pr with _ | pa
    · rcases s with _ | sa
      · simp [identityOrFail, userEmailOf, pyOrStr, truthyStr]
      · by_cases hsa : sa = "" <;>
          simp_all [identityOrFail, userEmailOf, pyOrStr, truthyStr]
    · rcases s with _ | sa
      · by_cases hpa : pa = "" <;>
          simp_all [identityOrFail, userEmailOf, pyOrStr, truthyStr]
      · by_cases hpa : pa = "" <;> by_cases hsa : sa = "" <;>
          simp_all [identityOrFail, userEmailOf, pyOrStr, truthyStr]
  · rcases pr with _ | pa
    · rcases s with _ | sa
      · by_cases hea : ea = "" <;>
          simp_all [identityOrFail, userEmailOf, pyOrStr, truthyStr]
      · by_cases hea : ea = "" <;> by_cases hsa : sa = "" <;>
          simp_all [identityOrFail, userEmailOf, pyOrStr, truthyStr]
    · rcases s with _ | sa
      · by_cases hea : ea = "" <;> by_cases hpa : pa = "" <;>
          simp_all [identityOrFail, userEmailOf, pyOrStr, truthyStr]
      · by_cases hea : ea = "" <;> by_cases hpa : pa = "" <;>
          by_cases hsa : sa = "" <;>
          simp_all [identityOrFail, userEmailOf, pyOrStr, truthyStr]

/-- Witness for C9: the email claim wins when truthy. -/
theorem identity_priority_truthy_witness :
    identityOrFail ⟨some "alice", none, some "sub_1"⟩ = .ok "alice" :=
  (identity_priority_truthy (some "alice") none (some "sub_1")).2.1 (by decide)

/-- C10 counterexample: a fix request that passes authentication and the
API-key check but arrives with the shared daily quota already exhausted
(seven hits recorded in the current window) is answered with 429 by the
`@limiter.limit("7/day")` wrapper — no event stream is opened — so the
stream does not open for every authenticated, API-key-valid FixRequest. -/
theorem fix_endpoint_quota_denied :
    fix_security_issues ⟨none, some "false", some "k", none, none⟩
      ⟨none, none, .failOther, .ok ⟨some "u@example.com", none, none⟩⟩
      [("u", ⟨7, 0⟩)] "u" 1 (some "Bearer t") none "" [] (.stream [] true) =
      (.error ⟨429, "Rate limit exceeded: 7 per 1 day"⟩, [("u", ⟨7, 0⟩)]) ∧
    verify_authenticated_user ⟨none, some "false", some "k", none, none⟩
      ⟨none, none, .failOther, .ok ⟨some "u@example.com", none, none⟩⟩
      (some "Bearer t") = .ok "u@example.com" ∧
    verify_api_key ⟨none, some "false", some "k", none, none⟩ none = none :=
  ⟨rfl, rfl, rfl⟩

/-- C10 (amended): the fix endpoint performs no request validation — for
every FixRequest that passes authentication, the rate limiter and the
API-key check, the event stream opens whatever the submitted code is
(empty, oversized or syntactically invalid alike); `validate_request`
does not occur on this path and neither the code nor the issues influence
the outcome. -/
theorem fix_endpoint_no_validation :
    ∀ env o st rlKey now authHeader xApiKey fixCode issues upstream em,
      verify_authenticated_user env o authHeader = .ok em →
      (limiterHit st rlKey now).1 = true →
      verify_api_key env xApiKey = none →
      fix_security_issues env o st rlKey now authHeader xApiKey fixCode
          issues upstream =
        (.ok (generate_fix_stream upstream), (limiterHit st rlKey now).2) := by
  intro env o st rlKey now authHeader xApiKey fixCode issues upstream em h1 hL h2
  rcases hP : limiterHit st rlKey now with ⟨b, st2⟩
  have hb : b = true := by
    rw [hP] at hL
    exact hL
  subst hb
  simp [fix_security_issues, h1, h2, hP]

/-- Witness for C10: the stream opens for the empty code input on a fresh
limiter window. -/
theorem fix_endpoint_no_validation_witness :
    fix_security_issues ⟨none, some "false", some "k", none, none⟩
      ⟨none, none, .failOther, .ok ⟨some "u@example.com", none, none⟩⟩
      [] "u" 0 (some "Bearer t") none "" [] (.stream [] true) =
      (.ok (generate_fix_stream (.stream [] true)), (limiterHit [] "u" 0).2) :=
  fix_endpoint_no_validation _ _ [] "u" 0 _ _ "" [] _ "u@example.com"
    rfl rfl rfl

/-! ## Lemmas for the fenced-block round trip -/

theorem length_dropWhile_le_chars (pb : Char → Bool) : ∀ l : Chars,
    (List.dropWhile pb l).length ≤ l.length := by
  intro l
  induction l with
  | nil => simp
  | cons c cs ih =>
    rw [List.dropWhile_cons]
    by_cases h : pb c = true
    · rw [if_pos h]
      simp only [List.length_cons]
      omega
    · rw [if_neg h]

theorem isPrefixOf_head_neq {a b : Char} (pat l : Chars) (h : (a == b) = false) :
    List.isPrefixOf (a :: pat) (b :: l) = false := by
  simp [List.isPrefixOf, h]

theorem takeBefore_ticks (l : Chars) (hl : '`' ∉ l) :
    takeBeforeSubstr "```".data (l ++ ('\n' :: '`' :: '`' :: '`' ::[])) = some (l ++ ['\n']) := by
  induction l with
  | nil => decide
  | cons c cs ih =>
    have hc : ('`' == c) = false := by
      rw [beq_eq_false_iff_ne]
      intro h
      exact hl (h ▸ List.mem_cons_self _ _)
    have hcs : '`' ∉ cs := fun h => hl (List.mem_cons_of_mem _ h)
    rw [List.cons_append, takeBeforeSubstr,
      if_neg (by rw [isPrefixOf_head_neq _ _ hc]; exact Bool.false_ne_true),
      ih hcs]
    simp

theorem dropWhile_eq_self_of_length (pb : Char → Bool) (l : Chars)
    (h : (List.dropWhile pb l).length = l.length) : List.dropWhile pb l = l := by
  cases l with
  | nil => rfl
  | cons c cs =>
    by_cases hc : pb c = true
    · exfalso
      have h2 := length_dropWhile_le_chars pb cs
      rw [List.dropWhile_cons, if_pos hc] at h
      simp only [List.length_cons] at h
      omega
    · rw [List.dropWhile_cons, if_neg hc]

theorem trim_parts_of_trim_eq (l : Chars) (h : pyTrimList l = l) :
    trimFront l = l ∧ trimBack l = l := by
  have hle1 : (List.dropWhile pyIsSpace l.reverse).length ≤ l.reverse.length :=
    length_dropWhile_le_chars pyIsSpace l.reverse
  have hle2 : (pyTrimList l).length ≤
      (List.dropWhile pyIsSpace l.reverse).reverse.length := by
    unfold pyTrimList trimFront trimBack
    exact length_dropWhile_le_chars _ _
  rw [h, List.length_reverse] at hle2
  rw [List.length_reverse] at hle1
  have hBlen : (List.dropWhile pyIsSpace l.reverse).length = l.reverse.length := by
    rw [List.length_reverse]
    omega
  have hB : List.dropWhile pyIsSpace l.reverse = l.reverse :=
    dropWhile_eq_self_of_length _ _ hBlen
  have hback : trimBack l = l := by
    unfold trimBack
    rw [hB, List.reverse_reverse]
  refine ⟨?_, hback⟩
  have h2 := h
  unfold pyTrimList at h2
  rw [hback] at h2
  exact h2

theorem pyTrim_wrap (l : Chars) (hf : trimFront l = l) (hb : trimBack l = l) :
    pyTrimList ('\n' :: (l ++ ['\n'])) = l := by
  cases l with
  | nil => decide
  | cons c cs =>
    unfold pyTrimList trimBack trimFront
    have h1 : ('\n' :: ((c :: cs) ++ ['\n'])).reverse =
        '\n' :: ((c :: cs).reverse ++ ['\n']) := by
      simp
    rw [h1, List.dropWhile_cons, if_pos (show pyIsSpace '\n' = true from rfl)]
    obtain ⟨d, t, hd⟩ : ∃ d t, (c :: cs).reverse = d :: t := by
      cases hrev : (c :: cs).reverse with
      | nil =>
        exfalso
        have := congrArg List.length hrev
        simp at this
      | cons d t => exact ⟨d, t, rfl⟩
    have hdns : pyIsSpace d = false := by
      unfold trimBack at hb
      rw [hd] at hb
      by_cases hds : pyIsSpace d = true
      · exfalso
        rw [List.dropWhile_cons, if_pos hds] at hb
        have h2 := length_dropWhile_le_chars pyIsSpace t
        have h3 := congrArg List.length hb
        have h4 := congrArg List.length hd
        simp at h3 h4
        omega
      · simpa using hds
    rw [hd, List.cons_append, List.dropWhile_cons,
      if_neg (by rw [hdns]; exact Bool.false_ne_true)]
    have h2 : ((d :: t) ++ ['\n']).reverse = '\n' :: (d :: t).reverse := by
      simp
    rw [← List.cons_append, h2, List.dropWhile_cons,
      if_pos (show pyIsSpace '\n' = true from rfl)]
    have h3 : (d :: t).reverse = c :: cs := by
      have := congrArg List.reverse hd
      simpa using this.symm
    rw [h3]
    exact hf

theorem parseValue_backtick (fuel : Nat) (cs : Chars) :
    parseValue fuel ('`' :: cs) = none := by
  cases fuel with
  | zero => rfl
  | succ f =>
    have hskip : skipWs ('`' :: cs) = '`' :: cs := by
      rw [skipWs, List.dropWhile_cons,
        if_neg (show ¬ (jsonWsChar '`' = true) by decide)]
    simp only [parseValue, hskip]
    rw [if_neg (show ¬ ('`' = lbrace) by decide),
      if_neg (show ¬ ('`' = '[') by decide),
      if_neg (show ¬ ('`' = '"') by decide)]
    simp [parseLiteralOrNumber, List.isPrefixOf, lexNumber, lexIntPart]

theorem wrap_data (p : String) : ("```json\n" ++ p ++ "\n```").data =
    '`' :: '`' :: '`' :: 'j' :: 's' :: 'o' :: 'n' :: '\n' :: (p.data ++ ('\n' :: '`' :: '`' :: '`' ::[])) := by
  rw [String.data_append, String.data_append]
  show (('`' :: '`' :: '`' :: 'j' :: 's' :: 'o' :: 'n' :: '\n' ::[]) ++ p.data) ++ ('\n' :: '`' :: '`' :: '`' ::[]) = _
  simp

theorem jsonParse_wrap_none (p : String) :
    jsonParse ("```json\n" ++ p ++ "\n```") = none := by
  unfold jsonParse
  rw [wrap_data, parseValue_backtick]

theorem dropAfter_fence (rest : Chars) :
    dropAfterSubstr "```json".data ('`' :: '`' :: '`' :: 'j' :: 's' :: 'o' :: 'n' ::rest) = some rest := by
  have hp : List.isPrefixOf "```json".data
      ('`' :: '`' :: '`' :: 'j' :: 's' :: 'o' :: 'n' ::rest) = true := by
    simp [List.isPrefixOf]
  simp [dropAfterSubstr, hp]

theorem extractFenced_wrap (p : String) (hb : '`' ∉ p.data)
    (ht : pyTrimList p.data = p.data) :
    extractFenced ("```json\n" ++ p ++ "\n```") = some p := by
  obtain ⟨hf, hbk⟩ := trim_parts_of_trim_eq p.data ht
  have hnl : '`' ∉ ('\n' :: p.data) := by
    intro h
    rcases List.mem_cons.mp h with h1 | h2
    · exact absurd h1 (by decide)
    · exact hb h2
  have hA : dropAfterSubstr "```json".data ("```json\n" ++ p ++ "\n```").data =
      some ('\n' :: (p.data ++ ('\n' :: '`' :: '`' :: '`' ::[]))) := by
    rw [wrap_data]
    exact dropAfter_fence _
  have hB : takeBeforeSubstr "```".data
      ('\n' :: (p.data ++ ('\n' :: '`' :: '`' :: '`' ::[]))) =
      some ('\n' :: (p.data ++ ['\n'])) :=
    takeBefore_ticks ('\n' :: p.data) hnl
  unfold extractFenced
  rw [hA]
  show (match takeBeforeSubstr "```".data
      ('\n' :: (p.data ++ ('\n' :: '`' :: '`' :: '`' ::[]))) with
    | none => (none : Option String)
    | some content => some (String.mk (pyTrimList content))) = some p
  rw [hB]
  show some (String.mk (pyTrimList ('\n' :: (p.data ++ ['\n'])))) = some p
  rw [pyTrim_wrap p.data hf hbk, strMk_data]

/-- C4 (amended): Normalizer round-trip.  A payload that is exact valid
JSON deserialising to a report parses to that report via path 1; the same
payload (backtick-free and already stripped) wrapped in a fenced json code
block parses to the identical report via path 2; and a scrambled payload
in which no candidate JSON is located (direct parse, fence and brace span
all fail) yields the degraded report preserving the literal first 200
characters with an empty issue list.  (The original claim's "every
scrambled/non-JSON payload ... never raising an exception" fails when the
scrambled text contains a brace span; see the counterexample.) -/
theorem normalizer_roundtrip :
    (∀ (p : String) (j : Json) (r : SecurityReport),
      jsonParse p = some j → reportOfJson j = some r →
      normalizeOutput p = some r) ∧
    (∀ (p : String) (j : Json) (r : SecurityReport),
      jsonParse p = some j → reportOfJson j = some r →
      '`' ∉ p.data → pyTrimList p.data = p.data →
      normalizeOutput ("```json\n" ++ p ++ "\n```") = some r) ∧
    (∀ s : String,
      jsonParse s = none → extractFenced s = none → extractBrace s = none →
      normalizeOutput s = some (degradedReport s) ∧
        (degradedReport s).issues = [] ∧
        (degradedReport s).summary =
          "Failed to parse analysis results. Raw output: " ++
            String.mk (s.data.take 200)) := by
  refine ⟨?_, ?_, ?_⟩
  · intro p j r h1 h2
    simp only [normalizeOutput, h1]
    exact h2
  · intro p j r h1 h2 hb ht
    simp only [normalizeOutput, jsonParse_wrap_none p,
      extractFenced_wrap p hb ht, h1]
    simp [h2]
  · intro s h1 h2 h3
    exact ⟨normalize_no_candidates s h1 h2 h3, rfl, rfl⟩

/-- Witness for C4: a concrete report payload through path 1 and path 2,
and a concrete scrambled payload through the degraded path. -/
theorem normalizer_roundtrip_witness :
    normalizeOutput "\x7b\"summary\": \"ok\", \"issues\": []\x7d" =
      some ⟨"ok", []⟩ ∧
    normalizeOutput
      ("```json\n" ++ "\x7b\"summary\": \"ok\", \"issues\": []\x7d" ++ "\n```") =
      some ⟨"ok", []⟩ ∧
    normalizeOutput "zzz" = some (degradedReport "zzz") :=
  ⟨normalizer_roundtrip.1 _
      (Json.obj [("summary", Json.str "ok"), ("issues", Json.arr [])])
      ⟨"ok", []⟩ rfl rfl,
    normalizer_roundtrip.2.1 _
      (Json.obj [("summary", Json.str "ok"), ("issues", Json.arr [])])
      ⟨"ok", []⟩ rfl rfl (by decide) (by decide),
    (normalizer_roundtrip.2.2 "zzz" rfl rfl rfl).1⟩

/-- C4 counterexample: a scrambled payload containing a brace pair is not
turned into a degraded report — the greedy brace-span extraction locates
a non-JSON span, `json.loads` raises on it, and the exception escapes the
Normalizer (`none`), contrary to "never raising an exception". -/
theorem normalizer_roundtrip_scrambled_exception :
    normalizeOutput "a\x7bb\x7dc" = none ∧
      extractBrace "a\x7bb\x7dc" = some "\x7bb\x7d" :=
  ⟨rfl, rfl⟩
